import Mathlib

/-!
Shallow embedding of the store client (TypeScript/React single-page app).

The embedding covers:
* the API client (`src/api/api.ts`): request construction for every endpoint
  and the shared `handleResponse` normalization routine;
* the page-level state machines (`Home`, `ProductDetail`, `CartPage`,
  `Register`): each event handler is a pure function from the page state and
  the outcome of the awaited network call to the next page state, and each
  page has a render function to a view datatype mirroring the JSX branches;
* the session context (`UserContext`): `setCurrentUserId` / `clearUser`
  against a localStorage model.

JavaScript numbers are modeled as `Int` (the claims only involve integer
ids, quantities and stock counts). JSON values parsed from response bodies
are modeled by the inductive `Json`, with JS truthiness and JS string
conversion made explicit, since `handleResponse` branches on the truthiness
of `body?.message` on arbitrary parsed JSON.
-/

namespace Store

/-- A JSON value as produced by `res.json()` / `JSON.parse`. -/
inductive Json where
  | null
  | bool (b : Bool)
  | num (n : Int)
  | str (s : String)
  | arr (elems : List Json)
  | obj (fields : List (String × Json))
deriving Repr

/-- JavaScript truthiness of a parsed JSON value (`if (v)`).
`null`, `false`, `0` and `""` are falsy; arrays and objects are always
truthy. -/
def Json.truthy : Json → Bool
  | .null => false
  | .bool b => b
  | .num n => n != 0
  | .str s => !s.isEmpty
  | .arr _ => true
  | .obj _ => true

mutual

/-- JavaScript `String(v)` conversion of a parsed JSON value: `null` prints
as "null", arrays join their elements with commas (with `null` elements
printing as the empty string, per `Array.prototype.toString`), plain objects
print as "[object Object]". -/
def Json.jsToString : Json → String
  | .null => "null"
  | .bool true => "true"
  | .bool false => "false"
  | .num n => toString n
  | .str s => s
  | .obj _ => "[object Object]"
  | .arr es => Json.arrJoin es

/-- The `Array.prototype.join(",")` used by array-to-string conversion:
`null` elements become the empty string. -/
def Json.arrJoin : List Json → String
  | [] => ""
  | [.null] => ""
  | [j] => Json.jsToString j
  | .null :: rest => "," ++ Json.arrJoin rest
  | j :: rest => Json.jsToString j ++ "," ++ Json.arrJoin rest

end

/-- JavaScript property access `v.k` on a parsed JSON value: a field lookup
on objects, `undefined` (here `none`) on every other value. -/
def Json.getField : Json → String → Option Json
  | .obj fields, k => fields.lookup k
  | _, _ => none

/-- A received HTTP response, as `handleResponse` observes it: the status,
the status text, and the outcome of attempting `res.json()` on the body
(`Except.error` carries the parse failure's message). -/
structure Response where
  status : Nat
  statusText : String
  body : Except String Json

/-- The `res.ok`: status in the inclusive range 200–299. -/
def Response.ok (res : Response) : Bool :=
  200 ≤ res.status && res.status ≤ 299

/-- Outcome of `handleResponse`: resolves with the void marker (`undefined`,
for 204), resolves with parsed data, or rejects with an error message. -/
inductive HandleResult where
  | resolvedVoid
  | resolvedData (j : Json)
  | rejected (msg : String)
deriving Repr

/-- The error-message computation of `handleResponse`'s non-ok branch:
`let err = res.statusText; try { const body = await res.json();
if (body?.message) { err = body.message; } } catch {};
throw new Error(err || "HTTP " + res.status)`.
`err` holds the raw JS value (status text string, or the truthy `message`
field of the parsed body); the thrown `Error`'s message is its JS string
conversion, with the "HTTP {status}" fallback taken when `err` is falsy. -/
def handleErrorMessage (res : Response) : String :=
  let err : Json :=
    match res.body with
    | .ok body =>
        match body.getField "message" with
        | some m => if m.truthy then m else .str res.statusText
        | none => .str res.statusText
    | .error _ => .str res.statusText
  if err.truthy then err.jsToString else "HTTP " ++ toString res.status

/-- The `handleResponse` from `src/api/api.ts`: on `res.ok`, 204 resolves with
`undefined` without touching the body, any other 2xx resolves with the
parsed JSON body (a body-parse failure rejects with the parse error's
message); on a non-2xx status it rejects with `handleErrorMessage`. -/
def handleResponse (res : Response) : HandleResult :=
  if res.ok then
    if res.status == 204 then .resolvedVoid
    else
      match res.body with
      | .ok j => .resolvedData j
      | .error e => .rejected e
  else .rejected (handleErrorMessage res)

/-! ### Request construction (`src/api/api.ts`) -/

/-- The `CreateUserRequest` from `src/types/api.ts`. -/
structure CreateUserRequest where
  username : String
  email : String

/-- The `UpdateUserRequest` from `src/types/api.ts` (both fields optional). -/
structure UpdateUserRequest where
  username : Option String
  email : Option String

/-- The `AddToCartRequest` from `src/types/api.ts`. -/
structure AddToCartRequest where
  productId : Int
  quantity : Int

/-- The `fetch` call an API function issues: URL, method (GET when the
`RequestInit` sets none), the explicitly set headers, and the JSON payload
serialized into the body, if any. -/
structure RequestSpec where
  url : String
  method : String
  headers : List (String × String)
  body : Option Json
deriving Repr

/-- The `VITE_API_BASE_URL ?? ""`: the configurable base URL, defaulting to
the empty string. -/
def BASE : String := ""

/-- The `createUser`: POST /api/users with JSON body and both headers. -/
def createUserRequest (dto : CreateUserRequest) : RequestSpec :=
  { url := BASE ++ "/api/users"
    method := "POST"
    headers := [("Content-Type", "application/json"), ("Accept", "application/json")]
    body := some (.obj [("username", .str dto.username), ("email", .str dto.email)]) }

/-- The `getUsers`: GET /api/users with the Accept header. -/
def getUsersRequest : RequestSpec :=
  { url := BASE ++ "/api/users"
    method := "GET"
    headers := [("Accept", "application/json")]
    body := none }

/-- The `getUserById`: GET /api/users/{id} with the Accept header. -/
def getUserByIdRequest (id : Int) : RequestSpec :=
  { url := BASE ++ "/api/users/" ++ toString id
    method := "GET"
    headers := [("Accept", "application/json")]
    body := none }

/-- The `updateUser`: PUT /api/users/{id} with JSON body and both headers
(`JSON.stringify` drops fields holding `undefined`). -/
def updateUserRequest (id : Int) (dto : UpdateUserRequest) : RequestSpec :=
  { url := BASE ++ "/api/users/" ++ toString id
    method := "PUT"
    headers := [("Content-Type", "application/json"), ("Accept", "application/json")]
    body := some (.obj
      ((match dto.username with | some u => [("username", Json.str u)] | none => []) ++
       (match dto.email with | some e => [("email", Json.str e)] | none => []))) }

/-- The `deleteUser`: DELETE /api/users/{id}; the `RequestInit` sets only the
method — no headers and no body. -/
def deleteUserRequest (id : Int) : RequestSpec :=
  { url := BASE ++ "/api/users/" ++ toString id
    method := "DELETE"
    headers := []
    body := none }

/-- The `getProducts`: GET /api/products with the Accept header. -/
def getProductsRequest : RequestSpec :=
  { url := BASE ++ "/api/products"
    method := "GET"
    headers := [("Accept", "application/json")]
    body := none }

/-- The `getProductById`: GET /api/products/{id} with the Accept header. -/
def getProductByIdRequest (id : Int) : RequestSpec :=
  { url := BASE ++ "/api/products/" ++ toString id
    method := "GET"
    headers := [("Accept", "application/json")]
    body := none }

/-- The `getCart`: GET /api/cart?userId={id} with the Accept header. -/
def getCartRequest (userId : Int) : RequestSpec :=
  { url := BASE ++ "/api/cart?userId=" ++ toString userId
    method := "GET"
    headers := [("Accept", "application/json")]
    body := none }

/-- The `addToCart`: POST /api/cart/add?userId={id} with JSON body and both
headers. -/
def addToCartRequest (userId : Int) (request : AddToCartRequest) : RequestSpec :=
  { url := BASE ++ "/api/cart/add?userId=" ++ toString userId
    method := "POST"
    headers := [("Content-Type", "application/json"), ("Accept", "application/json")]
    body := some (.obj [("productId", .num request.productId),
                        ("quantity", .num request.quantity)]) }

/-- The `removeFromCart`: DELETE /api/cart/remove/{productId}?userId={id}; the
`RequestInit` sets only the method — no headers and no body. -/
def removeFromCartRequest (userId : Int) (productId : Int) : RequestSpec :=
  { url := BASE ++ "/api/cart/remove/" ++ toString productId ++ "?userId=" ++ toString userId
    method := "DELETE"
    headers := []
    body := none }

/-- The `checkout`: POST /api/cart/checkout?userId={id} with the Accept header
and no body. -/
def checkoutRequest (userId : Int) : RequestSpec :=
  { url := BASE ++ "/api/cart/checkout?userId=" ++ toString userId
    method := "POST"
    headers := [("Accept", "application/json")]
    body := none }

/-- Whether the request explicitly sends the header `k` with value `v`. -/
def RequestSpec.sendsHeader (r : RequestSpec) (k v : String) : Bool :=
  r.headers.lookup k == some v

/-! ### Caught rejection values and the per-call-site catch normalization -/

/-- A value caught by a page-level `catch (err)`: either an `Error`
instance (carrying its `message` string), or any other JS value
(`undefined`, `null`, a string, a plain object, ...). -/
inductive Caught where
  | errObj (message : String)
  | otherVal (v : Json)
  | otherUndef
deriving Repr

/-- The catch-branch expression shared by every page handler:
`err instanceof Error ? err.message : fallback`. -/
def caughtDisplay (c : Caught) (fallback : String) : String :=
  match c with
  | .errObj m => m
  | .otherVal _ => fallback
  | .otherUndef => fallback

/-! ### DTOs used by the pages -/

/-- The `ProductDto` from `src/types/api.ts` (JS numbers as `Int`). -/
structure ProductDto where
  id : Int
  name : String
  description : Option String
  price : Int
  stockQuantity : Int
deriving Repr

/-- The `CartItemDto` from `src/types/api.ts`. -/
structure CartItemDto where
  id : Int
  productId : Int
  productName : String
  price : Int
  quantity : Int
  subtotal : Int
deriving Repr

/-- The `CheckoutResultDto` from `src/types/api.ts`. -/
structure CheckoutResultDto where
  success : Bool
  message : String
  totalAmount : Option Int
  purchasedItems : Option (List CartItemDto)
deriving Repr

/-- The `UserDto` from `src/types/api.ts`. -/
structure UserDto where
  id : Int
  username : String
  email : String
deriving Repr

/-! ### `parseInt(value, 10)` for the quantity input -/

/-- JS `StrWhiteSpace` characters skipped by `parseInt` (ASCII part). -/
def isJsWhitespace (c : Char) : Bool :=
  c == ' ' || c == '\t' || c == '\n' || c == '\r' ||
  c == '\x0b' || c == '\x0c'

/-- Skip leading whitespace, as `parseInt` does. -/
def skipJsWhitespace : List Char → List Char
  | [] => []
  | c :: rest => if isJsWhitespace c then skipJsWhitespace rest else c :: rest

/-- Consume an optional sign, returning (isNegative, rest). -/
def parseSign : List Char → Bool × List Char
  | [] => (false, [])
  | c :: rest =>
      if c = '-' then (true, rest)
      else if c = '+' then (false, rest)
      else (false, c :: rest)

/-- Value of a list of decimal digit characters, most significant first. -/
def digitsToNat (ds : List Char) : Nat :=
  ds.foldl (fun acc c => 10 * acc + (c.toNat - 48)) 0

/-- The `parseInt(s, 10)`: skip whitespace, optional sign, then the longest
prefix of decimal digits; `none` models `NaN` (no digits). Scanning stops
at the first non-digit, so `"3.7"` parses as `3` and `"-3.7"` as `-3`
(truncation toward zero). -/
def parseIntCore (cs : List Char) : Option Int :=
  let cs := skipJsWhitespace cs
  let (neg, cs) := parseSign cs
  let ds := cs.takeWhile (fun c => c.isDigit)
  if ds.isEmpty then none
  else some ((if neg then (-1 : Int) else 1) * (digitsToNat ds : Int))

/-- The string-level entry point of `parseInt(s, 10)`. -/
def parseIntJs (s : String) : Option Int :=
  parseIntCore s.data

/-- JS falsiness of `currentUserId : number | null`: `null` and `0` are
falsy (`if (!currentUserId)`). -/
def jsIdFalsy : Option Int → Bool
  | none => true
  | some n => n == 0

/-- A conditional JSX fragment over a nullable string, as in
`{message && <div>{message}</div>}`: the fragment renders only when the
value is truthy, so both `null` and the empty string render nothing. -/
def bannerOf : Option String → Option String
  | some m => if m.isEmpty then none else some m
  | none => none

/-! ### Home page (`src/pages/Home.tsx`) -/

/-- The `Home` component's state hooks. -/
structure HomeState where
  products : List ProductDto
  loading : Bool
  error : Option String
  message : Option String
deriving Repr

/-- The `Home.loadProducts`, as a function of the awaited `getProducts`
outcome: success replaces the product list, failure sets the error via the
`instanceof Error` normalization; `loading` ends `false` either way. -/
def homeLoadProducts (s : HomeState) (outcome : Except Caught (List ProductDto)) :
    HomeState :=
  match outcome with
  | .ok data => { s with loading := false, error := none, products := data }
  | .error e =>
      { s with loading := false
               error := some (caughtDisplay e "Failed to load products") }

/-- The `Home.handleAddToCart`: a falsy user id only sets the login prompt
message (no request); otherwise the message is cleared, the request is
issued (second component), and the outcome sets either the success message
or the page `error`. -/
def homeHandleAddToCart (s : HomeState) (userId : Option Int)
    (productId quantity : Int) (outcome : Except Caught Unit) :
    HomeState × Option AddToCartRequest :=
  if jsIdFalsy userId then
    ({ s with message := some "Please register or login to add items to cart" }, none)
  else
    match outcome with
    | .ok _ =>
        ({ s with message := some "Item added to cart!" },
         some ⟨productId, quantity⟩)
    | .error e =>
        ({ s with message := none
                  error := some (caughtDisplay e "Failed to add to cart") },
         some ⟨productId, quantity⟩)

/-- The `Home` JSX branches: loading screen, error screen (with Retry), or
the main view (optional banner plus the product grid / empty text). -/
inductive HomeView where
  | loadingV
  | errorV (msg : String)
  | listV (products : List ProductDto) (message : Option String)
deriving Repr

/-- The `Home`'s render: `loading` first, then `if (error)` — a JS
truthiness test on `string | null`, so an empty-string error is falsy and
falls through to the list view — then the list view with its
truthiness-guarded message banner. -/
def renderHome (s : HomeState) : HomeView :=
  if s.loading then .loadingV
  else
    match s.error with
    | some e =>
        if e.isEmpty then .listV s.products (bannerOf s.message)
        else .errorV e
    | none => .listV s.products (bannerOf s.message)

/-! ### Product detail page (`src/pages/ProductDetail.tsx`) -/

/-- The `ProductDetail` component's state hooks. -/
structure DetailState where
  product : Option ProductDto
  loading : Bool
  error : Option String
  quantity : Int
  message : Option String
deriving Repr

/-- The `ProductDetail.loadProduct` as a function of the awaited
`getProductById` outcome. -/
def detailLoadProduct (s : DetailState) (outcome : Except Caught ProductDto) :
    DetailState :=
  match outcome with
  | .ok data => { s with loading := false, error := none, product := some data }
  | .error e =>
      { s with loading := false
               error := some (caughtDisplay e "Failed to load product") }

/-- The quantity input's `onChange`:
`const val = parseInt(e.target.value, 10); setQuantity(isNaN(val) ? 1 : val)`. -/
def detailOnQuantityChange (s : DetailState) (input : String) : DetailState :=
  { s with quantity := match parseIntJs input with | none => 1 | some v => v }

/-- The `ProductDetail.handleAddToCart`: login prompt on a falsy user id, no-op
without a loaded product, the two quantity guards (each sets its message
and issues no request), and otherwise the request is issued and the outcome
sets the success message or the page `error`. -/
def detailHandleAddToCart (s : DetailState) (userId : Option Int)
    (outcome : Except Caught Unit) : DetailState × Option AddToCartRequest :=
  if jsIdFalsy userId then
    ({ s with message := some "Please register or login to add items to cart" }, none)
  else
    match s.product with
    | none => (s, none)
    | some product =>
      if s.quantity ≤ 0 then
        ({ s with message := some "Quantity must be greater than 0" }, none)
      else if s.quantity > product.stockQuantity then
        ({ s with message := some ("Only " ++ toString product.stockQuantity ++ " items available in stock") }, none)
      else
        match outcome with
        | .ok _ =>
            ({ s with message := some "Item added to cart!" },
             some ⟨product.id, s.quantity⟩)
        | .error e =>
            ({ s with message := none
                      error := some (caughtDisplay e "Failed to add to cart") },
             some ⟨product.id, s.quantity⟩)

/-- The `ProductDetail` JSX branches: loading, the error/not-found screen
(with only a back button), or the product view. -/
inductive DetailView where
  | loadingV
  | errorV (msg : String)
  | productV (p : ProductDto) (message : Option String) (quantity : Int)
      (loggedIn : Bool)
deriving Repr

/-- The `ProductDetail`'s render: `loading` first, then
`if (error || !product)` shows `error || "Product not found"` — both JS
truthiness tests, so an empty-string error counts as absent and a loaded
product is then shown — else the product view with its truthiness-guarded
message banner. -/
def renderDetail (userId : Option Int) (s : DetailState) : DetailView :=
  if s.loading then .loadingV
  else
    match s.error with
    | some e =>
        if e.isEmpty then
          match s.product with
          | none => .errorV "Product not found"
          | some p => .productV p (bannerOf s.message) s.quantity (!jsIdFalsy userId)
        else .errorV e
    | none =>
        match s.product with
        | none => .errorV "Product not found"
        | some p => .productV p (bannerOf s.message) s.quantity (!jsIdFalsy userId)

/-! ### Cart page (`src/pages/CartPage.tsx`) -/

/-- The `CartPage` component's state hooks. -/
structure CartState where
  cartItems : List CartItemDto
  loading : Bool
  error : Option String
  checkoutResult : Option CheckoutResultDto
deriving Repr

/-- The `CartPage.loadCart`: guarded by `if (!currentUserId) return`, then the
awaited `getCart` outcome replaces the items or sets the error. -/
def cartLoadCart (s : CartState) (userId : Option Int)
    (outcome : Except Caught (List CartItemDto)) : CartState :=
  if jsIdFalsy userId then s
  else
    match outcome with
    | .ok data => { s with loading := false, error := none, cartItems := data }
    | .error e =>
        { s with loading := false
                 error := some (caughtDisplay e "Failed to load cart") }

/-- The `CartPage.handleRemove`: on success the cart is reloaded via
`loadCart` (whose own outcome is the second argument); on failure the
error is set. -/
def cartHandleRemove (s : CartState) (userId : Option Int) (productId : Int)
    (removeOutcome : Except Caught Unit)
    (reloadOutcome : Except Caught (List CartItemDto)) : CartState :=
  if jsIdFalsy userId then s
  else
    match removeOutcome with
    | .ok _ => cartLoadCart { s with error := none } userId reloadOutcome
    | .error e =>
        { s with error := some (caughtDisplay e "Failed to remove item") }

/-- The `CartPage.handleCheckout`: empty-cart guard, then the awaited
`checkout` outcome; a resolved result is stored as `checkoutResult`, and
the items are cleared only when its `success` flag is true. The second
component records whether the checkout request was issued. -/
def cartHandleCheckout (s : CartState) (userId : Option Int)
    (outcome : Except Caught CheckoutResultDto) : CartState × Bool :=
  if jsIdFalsy userId then (s, false)
  else if s.cartItems.isEmpty then
    ({ s with error := some "Your cart is empty" }, false)
  else
    match outcome with
    | .ok result =>
        ({ s with error := none
                  checkoutResult := some result
                  cartItems := if result.success then [] else s.cartItems },
         true)
    | .error e =>
        ({ s with error := some (caughtDisplay e "Checkout failed") }, true)

/-- The `CartPage` JSX branches: `null` while redirecting an anonymous
user, loading, the checkout-result card, or the cart view (empty-state or
item list, each with the optional error banner). -/
inductive CartView where
  | redirecting
  | loadingV
  | checkoutV (result : CheckoutResultDto)
  | cartV (items : List CartItemDto) (error : Option String)
deriving Repr

/-- The `CartPage`'s render: the anonymous check comes first, then `loading`,
then a present `checkoutResult` (an object, always truthy) fully replaces
cart rendering; the cart view's error banner is truthiness-guarded
(`{error && <div>{error}</div>}`). -/
def renderCart (userId : Option Int) (s : CartState) : CartView :=
  if jsIdFalsy userId then .redirecting
  else if s.loading then .loadingV
  else
    match s.checkoutResult with
    | some r => .checkoutV r
    | none => .cartV s.cartItems (bannerOf s.error)

/-- What the `CartPage` mount effect does. -/
inductive MountAction where
  | navigateRegister
  | fetchCart (userId : Int)
deriving Repr

/-- The `CartPage`'s `useEffect`: a falsy user id navigates to `/register` and
returns before `loadCart`; otherwise the cart fetch is issued. -/
def cartPageMount (userId : Option Int) : MountAction :=
  match userId with
  | none => .navigateRegister
  | some uid => if uid == 0 then .navigateRegister else .fetchCart uid

/-! ### Register page (`src/pages/Register.tsx`) -/

/-- A character matching the regex class `[^\s@]`. -/
def isEmailAtom (c : Char) : Bool :=
  !isJsWhitespace c && c != '@'

/-- The test of `/^[^\s@]+@[^\s@]+\.[^\s@]+$/`: exactly one `@` separating
a non-empty run of `[^\s@]` from a domain that splits at some `.` into two
non-empty runs of `[^\s@]`. -/
def emailRegexTest (s : String) : Bool :=
  match s.data.splitOn '@' with
  | [localPart, domain] =>
      !localPart.isEmpty && localPart.all isEmailAtom &&
      !domain.isEmpty && domain.all isEmailAtom &&
      (List.range domain.length).any (fun i =>
        domain.get? i == some '.' && decide (1 ≤ i) && decide (i + 1 < domain.length))
  | _ => false

/-- JS `String.prototype.trim()`: strip leading and trailing whitespace. -/
def jsTrim (s : String) : String :=
  ⟨((s.data.dropWhile isJsWhitespace).reverse.dropWhile isJsWhitespace).reverse⟩

/-- The `Register` component's form state hooks. -/
structure RegState where
  username : String
  email : String
  loading : Bool
  error : Option String
deriving Repr

/-- The `Register.handleSubmit`: clears the error, runs the three client-side
validations (each sets its message and issues no request), then awaits
`createUser`; success stores the returned user id into the session
(second component) and failure sets the error via the `instanceof Error`
normalization. -/
def registerHandleSubmit (s : RegState) (outcome : Except Caught UserDto) :
    RegState × Option Int :=
  let s := { s with error := none }
  if (jsTrim s.username).data.isEmpty then
    ({ s with error := some "Username is required" }, none)
  else if (jsTrim s.email).data.isEmpty then
    ({ s with error := some "Email is required" }, none)
  else if !emailRegexTest s.email then
    ({ s with error := some "Please enter a valid email address" }, none)
  else
    match outcome with
    | .ok user => ({ s with loading := false }, some user.id)
    | .error e =>
        ({ s with loading := false
                  error := some (caughtDisplay e "Failed to create user") }, none)

/-- The `Register` JSX branches: the already-logged-in card (truthy user
id) or the form with its optional error banner. -/
inductive RegView where
  | loggedInV (userId : Int)
  | formV (error : Option String) (loading : Bool)
deriving Repr

/-- The `Register`'s render: the already-logged-in card on a truthy user
id, else the form with its truthiness-guarded error banner. -/
def renderRegister (userId : Option Int) (s : RegState) : RegView :=
  match userId with
  | some uid =>
      if uid == 0 then .formV (bannerOf s.error) s.loading
      else .loggedInV uid
  | none => .formV (bannerOf s.error) s.loading

/-! ### Session context (`src/context/UserContext.tsx`) -/

/-- The localStorage model: an association list of string keys to string
values. -/
abbrev Storage := List (String × String)

/-- The `localStorage.setItem`: bind `k` to `v`, dropping any previous
binding. -/
def storageSetItem (st : Storage) (k v : String) : Storage :=
  (k, v) :: st.filter (fun p => p.1 != k)

/-- The `localStorage.removeItem`. -/
def storageRemoveItem (st : Storage) (k : String) : Storage :=
  st.filter (fun p => p.1 != k)

/-- The `localStorage.getItem` (`none` for an absent key). -/
def storageGetItem (st : Storage) (k : String) : Option String :=
  st.lookup k

/-- The `USER_ID_STORAGE_KEY` from `UserContext.tsx`. -/
def USER_ID_STORAGE_KEY : String := "ai-store-user-id"

/-- The session context's observable state: the React state value and the
persistent store. -/
structure SessionState where
  currentUserId : Option Int
  storage : Storage
deriving Repr

/-- The `setCurrentUserId` from `UserContext.tsx`: updates the state and
writes `id.toString()` under the fixed key when `id !== null`, removing
the key otherwise. -/
def setCurrentUserId (s : SessionState) (id : Option Int) : SessionState :=
  { currentUserId := id
    storage :=
      match id with
      | some n => storageSetItem s.storage USER_ID_STORAGE_KEY (toString n)
      | none => storageRemoveItem s.storage USER_ID_STORAGE_KEY }

/-- The `clearUser` from `UserContext.tsx`: `setCurrentUserId(null)`. -/
def clearUser (s : SessionState) : SessionState :=
  setCurrentUserId s none

/-- The spec-side selection of the error body's message: the `message`
field of a successfully parsed non-2xx body, when that field is present
and truthy. Used to compare `handleResponse`'s error message against the
spec's stated preference order. -/
def truthyMessageField (res : Response) : Option Json :=
  match res.body with
  | .ok body =>
      match body.getField "message" with
      | some m => if m.truthy then some m else none
      | none => none
  | .error _ => none

/-! ## Helper lemmas -/

theorem lookup_filter_ne (st : Storage) (k : String) :
    (st.filter (fun p => p.1 != k)).lookup k = none := by
  induction st with
  | nil => rfl
  | cons hd tl ih =>
      obtain ⟨k1, v1⟩ := hd
      by_cases h : k1 = k
      · have hb : (k1 != k) = false := by simp [h]
        simpa [List.filter, hb] using ih
      · have hb : (k1 != k) = true := by simp [h]
        have hb2 : (k == k1) = false := by
          rw [beq_eq_false_iff_ne]
          exact fun he => h he.symm
        simp [List.filter, hb, List.lookup, hb2, ih]

theorem takeWhile_append_not (p : Char → Bool) (y : Char) (hy : p y = false) :
    ∀ (xs ys : List Char), ((xs ++ y :: ys).takeWhile p) = xs.takeWhile p := by
  intro xs ys
  induction xs with
  | nil => simp [List.takeWhile, hy]
  | cons x xs ih =>
      by_cases hx : p x
      · simp [List.takeWhile, hx, ih]
      · simp [List.takeWhile, hx]

theorem skipJsWhitespace_append (xs ys : List Char) :
    skipJsWhitespace (xs ++ ys) =
      match skipJsWhitespace xs with
      | [] => skipJsWhitespace ys
      | c :: rest => c :: rest ++ ys := by
  induction xs with
  | nil => simp [skipJsWhitespace]
  | cons x xs ih =>
      by_cases h : isJsWhitespace x
      · simp [skipJsWhitespace, h, ih]
      · simp [skipJsWhitespace, h]

theorem parseSign_append_dot (c : Char) (rest ds : List Char) :
    parseSign (c :: (rest ++ '.' :: ds)) =
      ((parseSign (c :: rest)).1, (parseSign (c :: rest)).2 ++ '.' :: ds) := by
  by_cases hneg : c = '-'
  · subst hneg; simp [parseSign]
  · by_cases hpos : c = '+'
    · subst hpos; simp [parseSign]
    · simp [parseSign, hneg, hpos]

theorem parseIntCore_append_dot (cs ds : List Char) :
    parseIntCore (cs ++ '.' :: ds) = parseIntCore cs := by
  unfold parseIntCore
  rw [skipJsWhitespace_append]
  cases h : skipJsWhitespace cs with
  | nil =>
      have hw : isJsWhitespace '.' = false := by decide
      have hd : ('.'.isDigit) = false := by decide
      simp [skipJsWhitespace, hw, parseSign, List.takeWhile, hd]
  | cons c rest =>
      simp only [List.cons_append, parseSign_append_dot,
        takeWhile_append_not (fun c => c.isDigit) '.' (by decide)]

theorem httpFallback_ne_empty (n : Nat) : ("HTTP " ++ toString n) ≠ "" := by
  intro h
  have hlen : ("HTTP " ++ toString n).length = 0 := by rw [h]; rfl
  rw [String.length_append] at hlen
  have : ("HTTP " : String).length = 5 := rfl
  omega

theorem isEmpty_false_ne (s : String) (h : s.isEmpty = false) : s ≠ "" := by
  intro he
  subst he
  exact absurd h (by decide)

theorem truthyMessageField_truthy (res : Response) (m : Json)
    (h : truthyMessageField res = some m) : m.truthy = true := by
  unfold truthyMessageField at h
  split at h
  · split at h
    · split at h
      · cases h
        assumption
      · cases h
    · cases h
  · cases h

theorem handleErrorMessage_eq (res : Response) :
    handleErrorMessage res =
      match truthyMessageField res with
      | some m => m.jsToString
      | none =>
          if res.statusText.isEmpty then "HTTP " ++ toString res.status
          else res.statusText := by
  unfold handleErrorMessage truthyMessageField
  cases hb : res.body with
  | error e =>
      by_cases he : res.statusText.isEmpty = true <;>
        simp [hb, Json.truthy, he, Json.jsToString]
  | ok body =>
      cases hm : body.getField "message" with
      | none =>
          by_cases he : res.statusText.isEmpty = true <;>
            simp [hb, hm, Json.truthy, he, Json.jsToString]
      | some m =>
          have hts : ∀ s, (Json.str s).truthy = !s.isEmpty := fun s => rfl
          have hjs : ∀ s, (Json.str s).jsToString = s := fun s => by
            simp [Json.jsToString]
          by_cases ht : m.truthy = true
          · simp [hb, hm, ht]
          · by_cases he : res.statusText.isEmpty = true <;>
              simp [hb, hm, ht, hts, hjs, he]

/-! ## Claim theorems -/

/-- C7: for every HTTP response with status 204, `handleResponse` resolves
with the explicit no-value marker (`undefined`), and it does so without any
body parse attempt: the result is the same for every possible body-parse
outcome. -/
theorem handleResponse_204 (res : Response) (h : res.status = 204) :
    handleResponse res = .resolvedVoid ∧
    ∀ body, handleResponse { res with body := body } = .resolvedVoid := by
  refine ⟨?_, fun body => ?_⟩ <;>
    simp [handleResponse, Response.ok, h]

theorem handleResponse_204_witness :
    handleResponse ⟨204, "No Content", .error "parse failure"⟩ = .resolvedVoid :=
  (handleResponse_204 ⟨204, "No Content", .error "parse failure"⟩ rfl).1

/-- C6: for every 2xx response whose status is not 204, `handleResponse`
parses the body, and a body-parse failure makes the call reject with the
parse error's message — it never resolves. -/
theorem handleResponse_malformed_2xx (res : Response) (e : String)
    (hok : res.ok = true) (h204 : res.status ≠ 204)
    (hbody : res.body = .error e) :
    handleResponse res = .rejected e := by
  simp [handleResponse, hok, hbody, h204]

theorem handleResponse_malformed_2xx_witness :
    handleResponse ⟨200, "OK", .error "Unexpected end of JSON input"⟩ =
      .rejected "Unexpected end of JSON input" :=
  handleResponse_malformed_2xx ⟨200, "OK", .error "Unexpected end of JSON input"⟩
    "Unexpected end of JSON input" rfl (by decide) rfl

/-- C8: entering the cart page with an anonymous session (no user id held)
navigates to the registration route before any cart fetch is issued, the
page renders the redirect placeholder in every state, and even the
`loadCart` guard itself returns without observing any fetch outcome. -/
theorem cartPage_anonymous_redirect :
    cartPageMount none = .navigateRegister ∧
    (∀ s, renderCart none s = .redirecting) ∧
    (∀ s outcome, cartLoadCart s none outcome = s) := by
  refine ⟨rfl, fun s => rfl, fun s outcome => rfl⟩

/-- C10: after every `setCurrentUserId` (and in particular after
`clearUser`), the persistent store holds the decimal string form of the
current user id under the fixed key exactly when the id is non-null, and
the key is absent exactly when the session is anonymous. -/
theorem session_storage_invariant (s : SessionState) (id : Option Int) :
    storageGetItem (setCurrentUserId s id).storage USER_ID_STORAGE_KEY =
      (setCurrentUserId s id).currentUserId.map (fun n => toString n) ∧
    (setCurrentUserId s id).currentUserId = id ∧
    storageGetItem (clearUser s).storage USER_ID_STORAGE_KEY = none ∧
    (clearUser s).currentUserId = none := by
  refine ⟨?_, rfl, ?_, rfl⟩
  · cases id with
    | none =>
        simp [setCurrentUserId, storageGetItem, storageRemoveItem,
          lookup_filter_ne]
    | some n =>
        simp [setCurrentUserId, storageGetItem, storageSetItem, List.lookup]
  · simp [clearUser, setCurrentUserId, storageGetItem, storageRemoveItem,
      lookup_filter_ne]

/-- C1 counterexample: a non-2xx response whose parsed error body is
`{"message": []}` makes `handleResponse` reject with the EMPTY message:
the empty array is truthy, so the code assigns it to `err`, the
`err || "HTTP 500"` fallback is skipped, and `new Error([])` stringifies
the array to `""` — refuting both "an error whose message is non-empty"
and the stated preference order (the field is not a non-empty string, yet
neither statusText nor "HTTP 500" is used). -/
theorem handleResponse_message_counterexample :
    handleResponse ⟨500, "Server Error", .ok (.obj [("message", .arr [])])⟩ =
      .rejected "" ∧ ("" : String).length = 0 :=
  ⟨rfl, rfl⟩

/-- C1 amended: for every non-2xx response, `handleResponse` rejects with:
the JS string form of the error body's `message` field when the body
parses and that field is present and truthy (for a string field, exactly
when it is non-empty); otherwise the status text when non-empty; otherwise
"HTTP {status}". The message is non-empty whenever the selected `message`
field is a string, and also whenever no truthy `message` field is
selected; it can be empty only for a truthy non-string `message` field
whose JS string form is empty (e.g. an empty array). -/
theorem handleResponse_non2xx_message (res : Response) (h : res.ok = false) :
    handleResponse res = .rejected
      (match truthyMessageField res with
       | some m => m.jsToString
       | none =>
           if res.statusText.isEmpty then "HTTP " ++ toString res.status
           else res.statusText) ∧
    (∀ s, truthyMessageField res = some (.str s) →
        handleResponse res = .rejected s ∧ s ≠ "") ∧
    (truthyMessageField res = none →
        ∀ msg, handleResponse res = .rejected msg → msg ≠ "") := by
  have hmain : handleResponse res = .rejected (handleErrorMessage res) := by
    simp [handleResponse, h]
  refine ⟨?_, ?_, ?_⟩
  · rw [hmain, handleErrorMessage_eq]
  · intro s hs
    have ht : (Json.str s).truthy = true := truthyMessageField_truthy res _ hs
    have hne : s ≠ "" := by
      apply isEmpty_false_ne
      simpa [Json.truthy] using ht
    refine ⟨?_, hne⟩
    rw [hmain, handleErrorMessage_eq, hs]
    simp [Json.jsToString]
  · intro hnone msg hmsg
    have hveq : handleErrorMessage res = msg := by
      rw [hmain] at hmsg
      exact (HandleResult.rejected.injEq _ _).mp hmsg.symm |>.symm
    rw [handleErrorMessage_eq, hnone] at hveq
    by_cases he : res.statusText.isEmpty
    · rw [if_pos he] at hveq
      exact hveq ▸ httpFallback_ne_empty res.status
    · rw [if_neg he] at hveq
      exact hveq ▸ isEmpty_false_ne res.statusText (Bool.not_eq_true _ ▸ he)

theorem handleResponse_non2xx_message_witness :
    handleResponse ⟨500, "Server Error", .ok (.obj [("message", .str "boom")])⟩ =
      .rejected "boom" :=
  ((handleResponse_non2xx_message
      ⟨500, "Server Error", .ok (.obj [("message", .str "boom")])⟩ rfl).2.1
    "boom" rfl).1

/-- C5 counterexample: the delete-user request sends no `Accept` header
at all (its `RequestInit` sets only the method), and neither does the
remove-from-cart request — refuting "every HTTP request issued by the API
client sends the header Accept: application/json ... in particular ...
the delete-user and remove-from-cart requests". -/
theorem apiHeaders_counterexample :
    (deleteUserRequest 1).sendsHeader "Accept" "application/json" = false ∧
    (removeFromCartRequest 1 2).sendsHeader "Accept" "application/json" = false ∧
    (deleteUserRequest 1).headers = [] ∧
    (removeFromCartRequest 1 2).headers = [] :=
  ⟨rfl, rfl, rfl, rfl⟩

/-- C5 amended: every request except delete-user and remove-from-cart
sends `Accept: application/json`; the three requests that carry a JSON
body (create-user, update-user, add-to-cart) additionally send
`Content-Type: application/json`; delete-user and remove-from-cart set no
headers at all. -/
theorem apiRequestHeaders (dto : CreateUserRequest) (udto : UpdateUserRequest)
    (addReq : AddToCartRequest) (id uid pid : Int) :
    (createUserRequest dto).sendsHeader "Accept" "application/json" = true ∧
    (createUserRequest dto).sendsHeader "Content-Type" "application/json" = true ∧
    (createUserRequest dto).body.isSome = true ∧
    getUsersRequest.sendsHeader "Accept" "application/json" = true ∧
    (getUserByIdRequest id).sendsHeader "Accept" "application/json" = true ∧
    (updateUserRequest id udto).sendsHeader "Accept" "application/json" = true ∧
    (updateUserRequest id udto).sendsHeader "Content-Type" "application/json" = true ∧
    (updateUserRequest id udto).body.isSome = true ∧
    (deleteUserRequest id).headers = [] ∧
    getProductsRequest.sendsHeader "Accept" "application/json" = true ∧
    (getProductByIdRequest id).sendsHeader "Accept" "application/json" = true ∧
    (getCartRequest uid).sendsHeader "Accept" "application/json" = true ∧
    (addToCartRequest uid addReq).sendsHeader "Accept" "application/json" = true ∧
    (addToCartRequest uid addReq).sendsHeader "Content-Type" "application/json" = true ∧
    (addToCartRequest uid addReq).body.isSome = true ∧
    (removeFromCartRequest uid pid).headers = [] ∧
    (checkoutRequest uid).sendsHeader "Accept" "application/json" = true :=
  ⟨rfl, rfl, rfl, rfl, rfl, rfl, rfl, rfl, rfl, rfl, rfl, rfl, rfl, rfl, rfl,
   rfl, rfl⟩

/-- C2: when checkout resolves with a result whose success flag is false,
the cart page stores the failure result and renders it with the result's
message, the locally held cart items are unchanged, and no error state is
set (the handler's catch is not reached); when the flag is true, the local
cart items are cleared. -/
theorem cartCheckout_result (s : CartState) (uid : Int) (r : CheckoutResultDto)
    (huid : jsIdFalsy (some uid) = false) (hload : s.loading = false)
    (hne : s.cartItems.isEmpty = false) :
    (r.success = false →
        (cartHandleCheckout s (some uid) (.ok r)).1.cartItems = s.cartItems ∧
        (cartHandleCheckout s (some uid) (.ok r)).1.error = none ∧
        renderCart (some uid) (cartHandleCheckout s (some uid) (.ok r)).1 =
          .checkoutV r) ∧
    (r.success = true →
        (cartHandleCheckout s (some uid) (.ok r)).1.cartItems = []) := by
  constructor
  · intro hr
    refine ⟨?_, ?_, ?_⟩ <;>
      simp [cartHandleCheckout, renderCart, huid, hload, hne, hr]
  · intro hr
    simp [cartHandleCheckout, huid, hne, hr]

theorem cartCheckout_result_witness :
    renderCart (some 1)
      (cartHandleCheckout ⟨[⟨1, 2, "Widget", 5, 1, 5⟩], false, none, none⟩
        (some 1) (.ok ⟨false, "Some items out of stock", none, none⟩)).1 =
      .checkoutV ⟨false, "Some items out of stock", none, none⟩ :=
  ((cartCheckout_result ⟨[⟨1, 2, "Widget", 5, 1, 5⟩], false, none, none⟩ 1
      ⟨false, "Some items out of stock", none, none⟩ rfl rfl rfl).1 rfl).2.2

/-- C3: on the product detail page with a loaded product and a logged-in
user, the add-to-cart request is issued exactly when 0 < quantity ≤ stock;
quantity ≤ 0 shows "Quantity must be greater than 0" and quantity > stock
shows "Only {stock} items available in stock" (no request in either case);
the quantity input normalizes unparsable input to 1 and takes the parsed
value otherwise, and `parseInt` truncates decimal input toward zero by
stopping at the decimal point. -/
theorem detailQuantity_guards (s : DetailState) (uid : Int) (p : ProductDto)
    (out : Except Caught Unit)
    (huid : jsIdFalsy (some uid) = false) (hp : s.product = some p) :
    (detailHandleAddToCart s (some uid) out).2 =
      (if 0 < s.quantity ∧ s.quantity ≤ p.stockQuantity
       then some ⟨p.id, s.quantity⟩ else none) ∧
    (s.quantity ≤ 0 →
        (detailHandleAddToCart s (some uid) out).1.message =
          some "Quantity must be greater than 0") ∧
    (0 < s.quantity → p.stockQuantity < s.quantity →
        (detailHandleAddToCart s (some uid) out).1.message =
          some ("Only " ++ toString p.stockQuantity ++ " items available in stock")) ∧
    (∀ input, parseIntJs input = none →
        (detailOnQuantityChange s input).quantity = 1) ∧
    (∀ input v, parseIntJs input = some v →
        (detailOnQuantityChange s input).quantity = v) ∧
    (∀ a b : String, parseIntJs (a ++ "." ++ b) = parseIntJs a) := by
  refine ⟨?_, ?_, ?_, ?_, ?_, ?_⟩
  · by_cases h0 : s.quantity ≤ 0
    · have hno : ¬(0 < s.quantity ∧ s.quantity ≤ p.stockQuantity) := by omega
      simp [detailHandleAddToCart, huid, hp, h0, hno]
    · by_cases hst : s.quantity > p.stockQuantity
      · have hno : ¬(0 < s.quantity ∧ s.quantity ≤ p.stockQuantity) := by omega
        simp [detailHandleAddToCart, huid, hp, h0, hst, hno]
      · have hyes : 0 < s.quantity ∧ s.quantity ≤ p.stockQuantity := by omega
        cases out <;> simp [detailHandleAddToCart, huid, hp, h0, hst, hyes]
  · intro h0
    simp [detailHandleAddToCart, huid, hp, h0]
  · intro h0 hst
    have h0' : ¬(s.quantity ≤ 0) := by omega
    have hst' : s.quantity > p.stockQuantity := by omega
    simp [detailHandleAddToCart, huid, hp, h0', hst']
  · intro input hnone
    simp [detailOnQuantityChange, hnone]
  · intro input v hv
    simp [detailOnQuantityChange, hv]
  · intro a b
    unfold parseIntJs
    rw [show (a ++ "." ++ b).data = a.data ++ '.' :: b.data by
        simp [String.data_append]]
    exact parseIntCore_append_dot a.data b.data

theorem detailQuantity_guards_witness :
    (detailHandleAddToCart ⟨some ⟨10, "Widget", none, 100, 5⟩, false, none, 5, none⟩
        (some 1) (.ok ())).2 = some ⟨10, 5⟩ := by
  have h := (detailQuantity_guards
      ⟨some ⟨10, "Widget", none, 100, 5⟩, false, none, 5, none⟩ 1
      ⟨10, "Widget", none, 100, 5⟩ (.ok ()) rfl rfl).1
  rw [h]
  norm_num

/-- C4 counterexample: with the product list loaded, a rejected
add-to-cart request on the Home page sets the page-level `error`, whose
render branch replaces the product grid with the error screen — so the
primary state does NOT remain rendered for every outcome of a transient
action. -/
theorem transientActions_counterexample :
    renderHome ⟨[⟨10, "Widget", none, 100, 5⟩], false, none, none⟩ =
      .listV [⟨10, "Widget", none, 100, 5⟩] none ∧
    renderHome (homeHandleAddToCart ⟨[⟨10, "Widget", none, 100, 5⟩], false, none, none⟩
        (some 1) 10 1 (.error (.errObj "Insufficient stock"))).1 =
      .errorV "Insufficient stock" :=
  ⟨rfl, rfl⟩

/-- C4 amended: transient actions never change the primary state variables
(the loaded product / product list), and a successful add-to-cart leaves
the product list rendered with only a side-channel message; but a REJECTED
add-to-cart on the Home and ProductDetail pages routes the failure into
the page-level error, and whenever that error message is non-empty (JS
`if (error)` is a truthiness test) its render branch replaces the primary
rendering with the error screen — an Error with an empty message instead
leaves the primary view rendered with no visible message; on the cart
page a rejected checkout with a non-empty message only adds the error
banner and leaves the cart items rendered. -/
theorem transientActions_amended :
    (∀ s uid pid q out,
        (homeHandleAddToCart s uid pid q out).1.products = s.products) ∧
    (∀ s uid out, (detailHandleAddToCart s uid out).1.product = s.product) ∧
    (∀ s uid pid q, jsIdFalsy uid = false → s.loading = false → s.error = none →
        renderHome (homeHandleAddToCart s uid pid q (.ok ())).1 =
          .listV s.products (some "Item added to cart!")) ∧
    (∀ s uid pid q m, jsIdFalsy uid = false → s.loading = false →
        m.isEmpty = false →
        renderHome (homeHandleAddToCart s uid pid q (.error (.errObj m))).1 =
          .errorV m) ∧
    (∀ s uid pid q, jsIdFalsy uid = false → s.loading = false →
        renderHome (homeHandleAddToCart s uid pid q (.error (.errObj ""))).1 =
          .listV s.products none) ∧
    (∀ s uid p m, jsIdFalsy uid = false → s.loading = false → s.product = some p →
        0 < s.quantity → s.quantity ≤ p.stockQuantity → m.isEmpty = false →
        renderDetail uid (detailHandleAddToCart s uid (.error (.errObj m))).1 =
          .errorV m) ∧
    (∀ s uid m, jsIdFalsy uid = false → s.loading = false →
        s.checkoutResult = none → s.cartItems.isEmpty = false →
        m.isEmpty = false →
        renderCart uid (cartHandleCheckout s uid (.error (.errObj m))).1 =
          .cartV s.cartItems (some m)) := by
  refine ⟨?_, ?_, ?_, ?_, ?_, ?_, ?_⟩
  · intro s uid pid q out
    by_cases h : jsIdFalsy uid = true
    · simp [homeHandleAddToCart, h]
    · cases out <;> simp [homeHandleAddToCart, h]
  · intro s uid out
    by_cases h : jsIdFalsy uid = true
    · simp [detailHandleAddToCart, h]
    · cases hp : s.product with
      | none => simp [detailHandleAddToCart, h, hp]
      | some p =>
          by_cases h0 : s.quantity ≤ 0
          · simp [detailHandleAddToCart, h, hp, h0]
          · by_cases hst : s.quantity > p.stockQuantity
            · simp [detailHandleAddToCart, h, hp, h0, hst]
            · cases out <;> simp [detailHandleAddToCart, h, hp, h0, hst]
  · intro s uid pid q huid hload herr
    have hb : bannerOf (some "Item added to cart!") = some "Item added to cart!" := by
      decide
    simp [homeHandleAddToCart, renderHome, huid, hload, herr, hb]
  · intro s uid pid q m huid hload hm
    simp [homeHandleAddToCart, renderHome, huid, hload, caughtDisplay, hm]
  · intro s uid pid q huid hload
    have he : ("" : String).isEmpty = true := by decide
    simp [homeHandleAddToCart, renderHome, huid, hload, caughtDisplay,
      bannerOf, he]
  · intro s uid p m huid hload hp h0 hst hm
    have h0' : ¬(s.quantity ≤ 0) := by omega
    have hst' : ¬(s.quantity > p.stockQuantity) := by omega
    simp [detailHandleAddToCart, renderDetail, huid, hload, hp, h0', hst',
      caughtDisplay, hm]
  · intro s uid m huid hload hres hne hm
    simp [cartHandleCheckout, renderCart, huid, hload, hres, hne,
      caughtDisplay, bannerOf, hm]

theorem transientActions_amended_witness :
    renderHome (homeHandleAddToCart ⟨[⟨10, "Widget", none, 100, 5⟩], false, none, none⟩
        (some 1) 10 1 (.ok ())).1 =
      .listV [⟨10, "Widget", none, 100, 5⟩] (some "Item added to cart!") :=
  transientActions_amended.2.2.1 ⟨[⟨10, "Widget", none, 100, 5⟩], false, none, none⟩
    (some 1) 10 1 rfl rfl rfl

/-- C9 counterexample: a rejection that is an Error instance with the
EMPTY message (reachable: `handleResponse` can reject with `""`, see the
C1 counterexample) stores `""` as the page error, but Home's `if (error)`
is a JS truthiness test, so nothing is displayed and the product list
renders instead — the displayed message is not that error's message. -/
theorem catchNormalization_counterexample :
    (homeLoadProducts ⟨[⟨10, "Widget", none, 100, 5⟩], true, none, none⟩
        (.error (.errObj ""))).error = some "" ∧
    renderHome (homeLoadProducts ⟨[⟨10, "Widget", none, 100, 5⟩], true, none, none⟩
        (.error (.errObj ""))) = .listV [⟨10, "Widget", none, 100, 5⟩] none :=
  ⟨rfl, rfl⟩

/-- C9 amended: for the product-list fetch, the cart fetch and
registration, a caught rejection that is not an Error instance (null, a
string, a plain object, undefined) displays the call site's fixed
fallback string; a rejection that is an Error instance stores exactly that
error's message as the page error, and the error is displayed exactly when
it is non-empty (an Error with an empty message, reachable from
`handleResponse`, displays nothing and leaves the primary view
rendered). -/
theorem catchNormalization :
    (∀ s v, renderHome (homeLoadProducts s (.error (.otherVal v))) =
        .errorV "Failed to load products") ∧
    (∀ s, renderHome (homeLoadProducts s (.error .otherUndef)) =
        .errorV "Failed to load products") ∧
    (∀ s m, (homeLoadProducts s (.error (.errObj m))).error = some m) ∧
    (∀ s m, m.isEmpty = false →
        renderHome (homeLoadProducts s (.error (.errObj m))) = .errorV m) ∧
    (∀ s uid v, jsIdFalsy uid = false →
        (cartLoadCart s uid (.error (.otherVal v))).error =
          some "Failed to load cart") ∧
    (∀ s uid m, jsIdFalsy uid = false →
        (cartLoadCart s uid (.error (.errObj m))).error = some m) ∧
    (∀ s v, (jsTrim s.username).data.isEmpty = false → (jsTrim s.email).data.isEmpty = false →
        emailRegexTest s.email = true →
        (registerHandleSubmit s (.error (.otherVal v))).1.error =
          some "Failed to create user") ∧
    (∀ s m, (jsTrim s.username).data.isEmpty = false → (jsTrim s.email).data.isEmpty = false →
        emailRegexTest s.email = true →
        (registerHandleSubmit s (.error (.errObj m))).1.error = some m) := by
  have hf : ("Failed to load products" : String).isEmpty = false := by decide
  refine ⟨?_, ?_, ?_, ?_, ?_, ?_, ?_, ?_⟩
  · intro s v; simp [homeLoadProducts, renderHome, caughtDisplay, hf]
  · intro s; simp [homeLoadProducts, renderHome, caughtDisplay, hf]
  · intro s m; simp [homeLoadProducts, caughtDisplay]
  · intro s m hm
    simp [homeLoadProducts, renderHome, caughtDisplay, hm]
  · intro s uid v huid; simp [cartLoadCart, huid, caughtDisplay]
  · intro s uid m huid; simp [cartLoadCart, huid, caughtDisplay]
  · intro s v h1 h2 h3
    simp [registerHandleSubmit, h1, h2, h3, caughtDisplay]
  · intro s m h1 h2 h3
    simp [registerHandleSubmit, h1, h2, h3, caughtDisplay]

theorem catchNormalization_witness :
    (registerHandleSubmit ⟨"bob", "a@b.c", false, none⟩
        (.error (.otherVal .null))).1.error = some "Failed to create user" :=
  catchNormalization.2.2.2.2.2.2.1 ⟨"bob", "a@b.c", false, none⟩ .null
    (by decide) (by decide) (by decide)

end Store
